import Mathlib

/-!
Verification of the mynewt `newt` CLI image-command orchestration layer:
the `create-image` command (`newt/cli/image_cmds.go`) and the `run` command
(`newt/cli/run_cmds.go`).

The Go code is shallowly embedded as pure Lean functions.  External
collaborators (project/target resolution, the builder, filesystem `stat`,
key loading, the image producer, load/debug) are modelled by an `Env` of
oracles; each command is a function from the oracle environment, the flag
configuration and the positional argument list to the ordered list of
observable events it performs.  `NewtUsage`, which prints an error and
terminates the process, is modelled by ending the trace with a
`usageError` event.
-/

namespace Newt

/-- Calendar fields of a file's modification time, as returned by the Go
`time.Time` accessors `Year`, `Month`, `Day`, `Hour`, `Minute`, `Second`. -/
structure ModTime where
  year : Nat
  month : Nat
  day : Nat
  hour : Nat
  minute : Nat
  second : Nat
deriving DecidableEq, Repr

/-- `image.ImageVersion`: Major `uint8`, Minor `uint8`, Rev `uint16`,
BuildNum `uint32`, represented as naturals (the embedding applies the
explicit `% 2^w` truncation wherever the Go code performs a conversion). -/
structure ImageVersion where
  major : Nat
  minor : Nat
  rev : Nat
  buildNum : Nat
deriving DecidableEq, Repr

/-- The package-level flag variables shared by `create-image` and `run`
(`useV1`, `useV2`, `useLegacyTLV`, `owSrcFilename`, `encKeyFilename`,
`encKeyIndex`, `hdrPad`, `imagePad`, `sections`). -/
structure Flags where
  useV1 : Bool
  useV2 : Bool
  useLegacyTLV : Bool
  owSrcFilename : String
  encKeyFilename : String
  encKeyIndex : Int
  hdrPad : Int
  imagePad : Int
  sections : String
deriving DecidableEq, Repr

/-- Cobra defaults for the shared flags: both format toggles off,
`encKeyIndex` defaults to `-1`, pads to `0`, string flags empty. -/
def flagsDefault : Flags :=
  { useV1 := false, useV2 := false, useLegacyTLV := false,
    owSrcFilename := "", encKeyFilename := "", encKeyIndex := -1,
    hdrPad := 0, imagePad := 0, sections := "" }

/-- Flags specific to the `run` command: `extraJtagCmd` and `noGDB_flag`. -/
structure RunFlags where
  extraJtagCmd : String
  noGDB : Bool
deriving DecidableEq, Repr

/-- Default `run` flags. -/
def runFlagsDefault : RunFlags := { extraJtagCmd := "", noGDB := false }

/-- The two resolved configuration settings `runRunCmd` inspects:
`parse.ValueIsTrue(settings["BOOT_LOADER"])` and
`parse.ValueIsTrue(settings["BSP_SIMULATED"])`. -/
structure RunSettings where
  bootLoader : Bool
  simulated : Bool
deriving DecidableEq, Repr

/-- Go `strconv.ParseUint(s, 10, 8)`: accepts a non-empty all-digit string
(no sign, base fixed at 10) whose value fits in 8 bits; every other input
is an error (`none`). -/
def parseUint8Dec (s : String) : Option Nat :=
  if s.isEmpty then none
  else if s.toList.all (fun c => c.isDigit) then
    if s.toList.foldl (fun a c => a * 10 + (c.toNat - 48)) 0 ≤ 255 then
      some (s.toList.foldl (fun a c => a * 10 + (c.toNat - 48)) 0)
    else none
  else none

/-- The key-identifier / key-filename selection performed by the first half
of `parseKeyArgs` (src lines 52-67): one argument means that argument is
the single key file and the key ID stays 0; with two or more arguments and
`useV1` set, the second argument is parsed as an 8-bit decimal key ID
(failure is the "Key ID must be between 0-255" error) and only `args[:1]`
is kept; with two or more arguments and `useV1` unset, the key ID is 0 and
every argument is a key filename. -/
def keyIdFiles (useV1 : Bool) (args : List String) :
    Except String (Nat × List String) :=
  match args with
  | [] => Except.ok (0, [])
  | a0 :: rest =>
    match rest with
    | [] => Except.ok (0, [a0])
    | a1 :: _ =>
      if useV1 then
        match parseUint8Dec a1 with
        | none => Except.error "Key ID must be between 0-255"
        | some n => Except.ok (n, [a0])
      else Except.ok (0, a0 :: rest)

/-- `parseKeyArgs` (src lines 47-75): returns `(keys, keyId)`.  An empty
argument list returns `(nil, 0)` without touching the filesystem;
otherwise the selected filenames are loaded via `sec.ReadPrivSignKeys`
(the `readKeys` oracle) and any load failure propagates. -/
def parseKeyArgs {κ : Type} (readKeys : List String → Except String (List κ))
    (useV1 : Bool) (args : List String) : Except String (List κ × Nat) :=
  if args.isEmpty then Except.ok ([], 0)
  else
    match keyIdFiles useV1 args with
    | .error e => Except.error e
    | .ok (keyId, files) =>
      match readKeys files with
      | .error e => Except.error e
      | .ok keys => Except.ok (keys, keyId)

instance exceptDecEq {ε α : Type} [DecidableEq ε] [DecidableEq α] :
    DecidableEq (Except ε α) := fun a b =>
  match a, b with
  | .error e1, .error e2 =>
    if h : e1 = e2 then isTrue (by rw [h]) else isFalse (by simp [h])
  | .error _, .ok _ => isFalse (by simp)
  | .ok _, .error _ => isFalse (by simp)
  | .ok v1, .ok v2 =>
    if h : v1 = v2 then isTrue (by rw [h]) else isFalse (by simp [h])

/-- The observable events of one command invocation, in execution order.
`usageError` models `NewtUsage` (report and terminate). -/
inductive Event (κ : Type) where
  | tryGetProject
  | resolveTarget (name : String)
  | newBuilder
  | parseVersionCall (tok : String)
  | readKeys (files : List String)
  | buildCall
  | statCall
  | resolveCfgCall
  | promptVersion
  | produceV1 (ver : ImageVersion) (keys : List κ) (encKey : String)
      (encIdx : Int) (hdrPad : Int) (imagePad : Int) (sections : String)
      (legacyTLV : Bool)
  | produce (ver : ImageVersion) (keys : List κ) (encKey : String)
      (encIdx : Int) (hdrPad : Int) (imagePad : Int) (sections : String)
      (legacyTLV : Bool) (owSrc : String)
  | loadCall
  | debugCall (noGDB : Bool) (extraJtag : String)
  | injectTestSetting
  | selfTestCreateExe
  | selfTestDebug
  | usageError (msg : String)
deriving DecidableEq, Repr

/-- The filesystem / key-read events `parseKeyArgs` performs: nothing for
an empty argument list or when key-ID parsing fails before any read, and a
single `readKeys` call on the selected filenames otherwise. -/
def keyArgEvents {κ : Type} (useV1 : Bool) (args : List String) :
    List (Event κ) :=
  if args.isEmpty then []
  else
    match keyIdFiles useV1 args with
    | .error _ => []
    | .ok (_, files) => [Event.readKeys files]

/-- Oracle environment standing for the external collaborators of one
command invocation (project/target registry, builder, filesystem, key
loader, image producer, loader, debugger, console). -/
structure Env (κ : Type) where
  resolveTarget : String → Option Nat
  newTargetBuilder : Nat → Except String Unit
  targetBuilderForTargetOrUnittest : String → Except String Unit
  isTestPkg : Bool
  selfTestCreateExeResult : Except String Unit
  selfTestDebugResult : Except String Unit
  resolveCfg : Except String RunSettings
  consoleInput : Option String
  parseVersion : String → Except String ImageVersion
  readPrivSignKeys : List String → Except String (List κ)
  build : Except String Unit
  statModTime : Except String ModTime
  produceAllV1Result : Except String Unit
  produceAllResult : Except String Unit
  load : Except String Unit
  debug : Except String Unit

/-- Timestamp-derived version (image_cmds src lines 132-136):
`Major = uint8(Year % 1000)`, `Minor = uint8(Month)`, `Rev = uint16(Day)`,
`BuildNum = uint32(Hour*10000 + Minute*100 + Second)`; the Go integer
conversions truncate modulo `2^8`, `2^16`, `2^32` respectively. -/
def versionFromModTime (t : ModTime) : ImageVersion :=
  { major := t.year % 1000 % 256
    minor := t.month % 256
    rev := t.day % 65536
    buildNum := (t.hour * 10000 + t.minute * 100 + t.second) % 4294967296 }

/-- The image-production tail shared verbatim by both commands (image_cmds
src lines 139-148, run_cmds src lines 107-116): `ProduceAllV1` under `useV1`
and `ProduceAll` (which additionally takes the overwrite-source filename
argument `owSrc`) otherwise; a production error ends in `NewtUsage`.  The
boolean result records whether production succeeded (the `run` command
continues to load/debug only in that case). -/
def produceEvents {κ : Type} (env : Env κ) (fl : Flags) (ver : ImageVersion)
    (keys : List κ) (owSrc : String) : List (Event κ) × Bool :=
  if fl.useV1 then
    match env.produceAllV1Result with
    | .error e =>
      ([Event.produceV1 ver keys fl.encKeyFilename fl.encKeyIndex fl.hdrPad
          fl.imagePad fl.sections fl.useLegacyTLV, Event.usageError e], false)
    | .ok _ =>
      ([Event.produceV1 ver keys fl.encKeyFilename fl.encKeyIndex fl.hdrPad
          fl.imagePad fl.sections fl.useLegacyTLV], true)
  else
    match env.produceAllResult with
    | .error e =>
      ([Event.produce ver keys fl.encKeyFilename fl.encKeyIndex fl.hdrPad
          fl.imagePad fl.sections fl.useLegacyTLV owSrc,
        Event.usageError e], false)
    | .ok _ =>
      ([Event.produce ver keys fl.encKeyFilename fl.encKeyIndex fl.hdrPad
          fl.imagePad fl.sections fl.useLegacyTLV owSrc], true)

/-- `createImageRunCmd` (image_cmds src lines 77-149) as an event trace:
argument-count check, mutually-exclusive flag check, `TryGetProject`,
target resolution, version-token handling (`"timestamp"` defers
derivation, anything else is parsed immediately), builder construction,
`parseKeyArgs(args[2:])` (key ID discarded), build, the deferred
timestamp derivation via `os.Stat`, and finally image production.
The Go `if !useV1 { useV2 = true }` write has no further observable
effect inside the invocation (only `useV1` is consulted afterwards). -/
def createImageRunCmd {κ : Type} (env : Env κ) (fl : Flags)
    (args : List String) : List (Event κ) :=
  match args with
  | a0 :: a1 :: rest =>
    if fl.useV1 && fl.useV2 then
      [Event.usageError "Either -1, or -2, but not both"]
    else
      Event.tryGetProject ::
      Event.resolveTarget a0 ::
      match env.resolveTarget a0 with
      | none => [Event.usageError ("Invalid target name: " ++ a0)]
      | some tid =>
        (if a1 = "timestamp" then [] else [Event.parseVersionCall a1]) ++
        match (if a1 = "timestamp" then
                 Except.ok { major := 0, minor := 0, rev := 0, buildNum := 0 }
               else env.parseVersion a1) with
        | .error e => [Event.usageError e]
        | .ok ver0 =>
          Event.newBuilder ::
          match env.newTargetBuilder tid with
          | .error e => [Event.usageError e]
          | .ok _ =>
            keyArgEvents fl.useV1 rest ++
            match parseKeyArgs env.readPrivSignKeys fl.useV1 rest with
            | .error e => [Event.usageError e]
            | .ok (keys, _) =>
              Event.buildCall ::
              match env.build with
              | .error e => [Event.usageError e]
              | .ok _ =>
                if a1 = "timestamp" then
                  Event.statCall ::
                  match env.statModTime with
                  | .error e => [Event.usageError e]
                  | .ok mt =>
                    (produceEvents env fl (versionFromModTime mt) keys
                      fl.owSrcFilename).1
                else
                  (produceEvents env fl ver0 keys fl.owSrcFilename).1
  | _ => [Event.usageError "Must specify target and version"]

/-- The load/debug tail of the `run` command (run_cmds src lines 119-125). -/
def runLoadDebug {κ : Type} (env : Env κ) (rf : RunFlags) : List (Event κ) :=
  Event.loadCall ::
  match env.load with
  | .error e => [Event.usageError e]
  | .ok _ =>
    Event.debugCall rf.noGDB rf.extraJtagCmd ::
    match env.debug with
    | .error e => [Event.usageError e]
    | .ok _ => []

/-- The part of `runRunCmd` after the version string has been resolved
(run_cmds src lines 88-125): build; then, only when the version string is
non-empty, parse it, resolve keys from `args[2:]` when more than two
arguments were given (key ID discarded), and produce the image passing the
empty string as the overwrite-source argument; finally load and debug. -/
def runAfterVersion {κ : Type} (env : Env κ) (fl : Flags) (rf : RunFlags)
    (args : List String) (verStr : String) : List (Event κ) :=
  Event.buildCall ::
  match env.build with
  | .error e => [Event.usageError e]
  | .ok _ =>
    if verStr.length > 0 then
      Event.parseVersionCall verStr ::
      match env.parseVersion verStr with
      | .error e => [Event.usageError e]
      | .ok ver =>
        (if args.length > 2 then keyArgEvents fl.useV1 (args.drop 2)
         else []) ++
        match (if args.length > 2 then
                 parseKeyArgs env.readPrivSignKeys fl.useV1 (args.drop 2)
               else Except.ok ([], 0)) with
        | .error e => [Event.usageError e]
        | .ok (keys, _) =>
          let pe := produceEvents env fl ver keys ""
          pe.1 ++ (if pe.2 then runLoadDebug env rf else [])
    else runLoadDebug env rf

/-- `runRunCmd` (run_cmds src lines 35-127) as an event trace: argument
check, mutually-exclusive flag check, `TryGetProject`, builder
construction for a target or unit test; unit-test targets run the
self-test path; otherwise the version string is `args[1]` when present,
and when absent the resolved configuration is consulted — a bootloader or
simulated target leaves the version empty, any other target is prompted
interactively with `"0"` as the default when the console scan yields
nothing. -/
def runRunCmd {κ : Type} (env : Env κ) (fl : Flags) (rf : RunFlags)
    (args : List String) : List (Event κ) :=
  match args with
  | [] => [Event.usageError "Must specify target"]
  | a0 :: rest =>
    if fl.useV1 && fl.useV2 then
      [Event.usageError "Either -1, or -2, but not both"]
    else
      Event.tryGetProject ::
      Event.newBuilder ::
      match env.targetBuilderForTargetOrUnittest a0 with
      | .error e => [Event.usageError e]
      | .ok _ =>
        if env.isTestPkg then
          Event.injectTestSetting ::
          Event.selfTestCreateExe ::
          match env.selfTestCreateExeResult with
          | .error e => [Event.usageError e]
          | .ok _ =>
            Event.selfTestDebug ::
            match env.selfTestDebugResult with
            | .error e => [Event.usageError e]
            | .ok _ => []
        else
          match rest with
          | a1 :: _ => runAfterVersion env fl rf (a0 :: rest) a1
          | [] =>
            Event.resolveCfgCall ::
            match env.resolveCfg with
            | .error e => [Event.usageError e]
            | .ok st =>
              if !st.bootLoader && !st.simulated then
                Event.promptVersion ::
                runAfterVersion env fl rf (a0 :: rest)
                  (match env.consoleInput with
                   | none => "0"
                   | some s => s)
              else runAfterVersion env fl rf (a0 :: rest) ""

/-- A concrete key loader for test environments: each filename "loads" to
its length. -/
def rkLen : List String → Except String (List Nat) :=
  fun fs => Except.ok (fs.map String.length)

/-- A concrete all-succeeding environment whose target configuration marks
a bootloader, whose console yields no input, and whose build artifact is
last modified 2024-03-07 14:05:09. -/
def envA : Env Nat :=
  { resolveTarget := fun n => if n = "t" then some 1 else none
    newTargetBuilder := fun _ => Except.ok ()
    targetBuilderForTargetOrUnittest := fun _ => Except.ok ()
    isTestPkg := false
    selfTestCreateExeResult := Except.ok ()
    selfTestDebugResult := Except.ok ()
    resolveCfg := Except.ok { bootLoader := true, simulated := false }
    consoleInput := none
    parseVersion := fun s =>
      if s = "1.2.3" then Except.ok { major := 1, minor := 2, rev := 3, buildNum := 0 }
      else if s = "0" then Except.ok { major := 0, minor := 0, rev := 0, buildNum := 0 }
      else Except.error ("Invalid version string: " ++ s)
    readPrivSignKeys := rkLen
    build := Except.ok ()
    statModTime := Except.ok
      { year := 2024, month := 3, day := 7, hour := 14, minute := 5, second := 9 }
    produceAllV1Result := Except.ok ()
    produceAllResult := Except.ok ()
    load := Except.ok ()
    debug := Except.ok () }

/-- Like `envA` but the target is neither a bootloader nor simulated. -/
def envB : Env Nat :=
  { envA with resolveCfg := Except.ok { bootLoader := false, simulated := false } }

/-- Like `envA` but the version parser rejects every token (as the real
dotted-version parser does on the literal "timestamp"). -/
def envC : Env Nat :=
  { envA with parseVersion := fun s => Except.error ("Invalid version string: " ++ s) }

/-- Both mutually-exclusive format flags supplied. -/
def flagsBoth : Flags := { flagsDefault with useV1 := true, useV2 := true }

/-- Current-format flags with an overwrite-source filename configured. -/
def flagsOw : Flags := { flagsDefault with owSrcFilename := "ow.bin" }

theorem runLoadDebug_ok {κ : Type} (env : Env κ) (rf : RunFlags)
    (hl : env.load = Except.ok ()) (hd : env.debug = Except.ok ()) :
    runLoadDebug env rf
      = [Event.loadCall, Event.debugCall rf.noGDB rf.extraJtagCmd] := by
  simp [runLoadDebug, hl, hd]

theorem runAfterVersion_empty {κ : Type} (env : Env κ) (fl : Flags)
    (rf : RunFlags) (args : List String) :
    runAfterVersion env fl rf args "" =
      Event.buildCall ::
        match env.build with
        | .error e => [Event.usageError e]
        | .ok _ => runLoadDebug env rf := by
  unfold runAfterVersion
  cases hb : env.build <;>
    simp [hb, (by decide : ("".length > 0) = False)]

theorem statCall_notin_runLoadDebug {κ : Type} (env : Env κ) (rf : RunFlags) :
    Event.statCall ∉ runLoadDebug env rf := by
  unfold runLoadDebug
  cases h : env.load <;> simp [h]
  cases h2 : env.debug <;> simp [h2]

theorem statCall_notin_produceEvents {κ : Type} (env : Env κ) (fl : Flags)
    (ver : ImageVersion) (keys : List κ) (ow : String) :
    Event.statCall ∉ (produceEvents env fl ver keys ow).1 := by
  unfold produceEvents
  cases hv : fl.useV1 <;> simp [hv]
  · cases h1 : env.produceAllResult <;> simp [h1]
  · cases h1 : env.produceAllV1Result <;> simp [h1]

theorem statCall_notin_keyArgEvents {κ : Type} (v1 : Bool)
    (args : List String) :
    Event.statCall ∉ (keyArgEvents v1 args : List (Event κ)) := by
  unfold keyArgEvents
  split
  · simp
  · cases h : keyIdFiles v1 args with
    | error e => simp
    | ok p => simp

theorem statCall_notin_runAfterVersion {κ : Type} (env : Env κ) (fl : Flags)
    (rf : RunFlags) (args : List String) (verStr : String) :
    Event.statCall ∉ runAfterVersion env fl rf args verStr := by
  unfold runAfterVersion
  cases hb : env.build <;> simp [hb]
  split
  · cases hp : env.parseVersion verStr <;> simp [hp]
    cases hk : (if args.length > 2 then
        parseKeyArgs env.readPrivSignKeys fl.useV1 (args.drop 2)
      else Except.ok ([], 0)) with
    | error e => simp [hk, statCall_notin_keyArgEvents]
    | ok p =>
      obtain ⟨ks, kid⟩ := p
      simp only [hk, List.mem_append, List.mem_cons, not_or]
      refine ⟨?_, ?_, ?_⟩
      · simp [statCall_notin_keyArgEvents]
      · exact statCall_notin_produceEvents env fl _ ks ""
      · simp [statCall_notin_runLoadDebug]
  · exact statCall_notin_runLoadDebug env rf

theorem readKeys_notin_runLoadDebug {κ : Type} (env : Env κ) (rf : RunFlags)
    (fs : List String) :
    Event.readKeys fs ∉ runLoadDebug env rf := by
  unfold runLoadDebug
  cases h : env.load <;> simp [h]
  cases h2 : env.debug <;> simp [h2]

theorem produce_notin_runLoadDebug {κ : Type} (env : Env κ) (rf : RunFlags)
    (v : ImageVersion) (ks : List κ) (eK : String) (eI hP iP : Int)
    (sec : String) (lt : Bool) (ow : String) :
    Event.produce v ks eK eI hP iP sec lt ow ∉ runLoadDebug env rf := by
  unfold runLoadDebug
  cases h : env.load <;> simp [h]
  cases h2 : env.debug <;> simp [h2]

theorem produce_notin_keyArgEvents {κ : Type} (v1 : Bool)
    (args : List String) (v : ImageVersion) (ks : List κ) (eK : String)
    (eI hP iP : Int) (sec : String) (lt : Bool) (ow : String) :
    Event.produce v ks eK eI hP iP sec lt ow ∉
      (keyArgEvents v1 args : List (Event κ)) := by
  unfold keyArgEvents
  split
  · simp
  · cases h : keyIdFiles v1 args with
    | error e => simp
    | ok p => simp

theorem produce_mem_produceEvents {κ : Type} {env : Env κ} {fl : Flags}
    {ver : ImageVersion} {keys : List κ} {ow2 : String} {v : ImageVersion}
    {ks : List κ} {eK : String} {eI hP iP : Int} {sec : String} {lt : Bool}
    {ow : String}
    (h : Event.produce v ks eK eI hP iP sec lt ow
        ∈ (produceEvents env fl ver keys ow2).1) : ow = ow2 := by
  unfold produceEvents at h
  cases hv : fl.useV1 <;> simp [hv] at h
  · cases h1 : env.produceAllResult <;> simp [h1] at h <;>
      exact h.2.2.2.2.2.2.2.2
  · cases h1 : env.produceAllV1Result <;> simp [h1] at h

theorem produce_mem_runAfterVersion {κ : Type} {env : Env κ} {fl : Flags}
    {rf : RunFlags} {args : List String} {verStr : String}
    {v : ImageVersion} {ks : List κ} {eK : String} {eI hP iP : Int}
    {sec : String} {lt : Bool} {ow : String}
    (h : Event.produce v ks eK eI hP iP sec lt ow
        ∈ runAfterVersion env fl rf args verStr) : ow = "" := by
  unfold runAfterVersion at h
  cases hb : env.build <;> simp [hb] at h
  split at h
  · simp at h
    cases hp : env.parseVersion verStr <;> simp [hp] at h
    cases hk : (if args.length > 2 then
        parseKeyArgs env.readPrivSignKeys fl.useV1 (args.drop 2)
      else Except.ok ([], 0)) with
    | error e =>
      simp [hk, produce_notin_keyArgEvents] at h
    | ok p =>
      obtain ⟨ks2, kid⟩ := p
      simp only [hk, List.mem_append] at h
      rcases h with h | h | h
      · exact absurd h.2 (produce_notin_keyArgEvents fl.useV1 (args.drop 2)
          v ks eK eI hP iP sec lt ow)
      · exact produce_mem_produceEvents h
      · split at h
        · exact absurd h
            (produce_notin_runLoadDebug env rf v ks eK eI hP iP sec lt ow)
        · simp at h
  · exact absurd h
      (produce_notin_runLoadDebug env rf v ks eK eI hP iP sec lt ow)

theorem parseUint8Dec_le {s : String} {n : Nat}
    (h : parseUint8Dec s = some n) : n ≤ 255 := by
  unfold parseUint8Dec at h
  split at h
  · simp at h
  · split at h
    · split at h
      · rename_i hle
        injection h with h2
        omega
      · simp at h
    · simp at h

/-- C4: with the legacy (V1) format active and at least two arguments,
`parseKeyArgs` parses `args[1]` as a decimal key identifier in `[0, 255]`
(any other second argument yields the "Key ID must be between 0-255"
error), uses only `args[0]` as a key filename, and ignores every argument
beyond the second. -/
theorem parseKeyArgs_v1_multi {κ : Type}
    (rk : List String → Except String (List κ)) (a0 a1 : String)
    (rest : List String) :
    parseKeyArgs rk true (a0 :: a1 :: rest) = parseKeyArgs rk true [a0, a1]
  ∧ (∀ n, parseUint8Dec a1 = some n →
      n ≤ 255 ∧
        parseKeyArgs rk true (a0 :: a1 :: rest)
          = Except.map (fun ks => (ks, n)) (rk [a0]))
  ∧ (parseUint8Dec a1 = none →
      parseKeyArgs rk true (a0 :: a1 :: rest)
        = Except.error "Key ID must be between 0-255") := by
  refine ⟨?_, ?_, ?_⟩
  · simp only [parseKeyArgs, keyIdFiles, List.isEmpty_cons]
    cases parseUint8Dec a1 <;> simp
  · intro n hn
    refine ⟨parseUint8Dec_le hn, ?_⟩
    simp only [parseKeyArgs, keyIdFiles, List.isEmpty_cons, hn]
    cases h : rk [a0] <;> simp [h, Except.map]
  · intro hn
    simp [parseKeyArgs, keyIdFiles, hn]

/-- C5: with the current (V2) format active, `parseKeyArgs` treats every
argument as a key filename and returns key identifier 0; a nonzero key
identifier can only come out of the legacy (V1) format. -/
theorem parseKeyArgs_v2_all_files_keyId_zero {κ : Type}
    (rk : List String → Except String (List κ)) (args : List String) :
    (args = [] → parseKeyArgs rk false args = Except.ok ([], 0))
  ∧ (args ≠ [] →
      parseKeyArgs rk false args
        = Except.map (fun ks => (ks, 0)) (rk args))
  ∧ (∀ (v1 : Bool) (ks : List κ) (kid : Nat),
      parseKeyArgs rk v1 args = Except.ok (ks, kid) → kid ≠ 0 →
        v1 = true) := by
  refine ⟨?_, ?_, ?_⟩
  · intro h
    simp [h, parseKeyArgs]
  · intro h
    match args with
    | [] => exact absurd rfl h
    | [a0] =>
      simp only [parseKeyArgs, keyIdFiles, List.isEmpty_cons]
      cases h2 : rk [a0] <;> simp [h2, Except.map]
    | a0 :: a1 :: rest =>
      simp only [parseKeyArgs, keyIdFiles, List.isEmpty_cons]
      cases h2 : rk (a0 :: a1 :: rest) <;> simp [h2, Except.map]
  · intro v1 ks kid hres hkid
    cases v1 with
    | true => rfl
    | false =>
      exfalso
      apply hkid
      match args with
      | [] =>
        simp [parseKeyArgs] at hres
        omega
      | [a0] =>
        simp only [parseKeyArgs, keyIdFiles, List.isEmpty_cons] at hres
        cases h : rk [a0] <;> simp [h] at hres
        omega
      | a0 :: a1 :: rest =>
        simp only [parseKeyArgs, keyIdFiles, List.isEmpty_cons] at hres
        cases h : rk (a0 :: a1 :: rest) <;> simp [h] at hres
        omega

/-- C6: the timestamp-derived version is a pure function of the
modification time's calendar fields: Major is the year mod 1000 truncated
to 8 bits, Minor the month, Rev the day, and BuildNum packs the time of
day as hour*10000 + minute*100 + second. -/
theorem versionFromModTime_spec (t : ModTime)
    (hm : t.month ≤ 12) (hd : t.day ≤ 31) (hh : t.hour < 24)
    (hmi : t.minute < 60) (hs : t.second < 60) :
    versionFromModTime t =
      { major := t.year % 1000 % 256, minor := t.month, rev := t.day,
        buildNum := t.hour * 10000 + t.minute * 100 + t.second } := by
  simp only [versionFromModTime, ImageVersion.mk.injEq, true_and]
  omega

/-- C6 witness: modification time 2024-03-07 14:05:09 yields
Major=24, Minor=3, Rev=7, BuildNum=140509. -/
theorem versionFromModTime_spec_w :
    versionFromModTime
        { year := 2024, month := 3, day := 7, hour := 14, minute := 5,
          second := 9 }
      = { major := 24, minor := 3, rev := 7, buildNum := 140509 } := by
  have h := versionFromModTime_spec
    { year := 2024, month := 3, day := 7, hour := 14, minute := 5,
      second := 9 }
    (by decide) (by decide) (by decide) (by decide) (by decide)
  rw [h]
  decide

/-- C8: when both the legacy and the current format flag are supplied,
each command's whole observable behaviour is a single usage error: no
target resolution, build, production, load or debug event is entered. -/
theorem both_format_flags_usage_error {κ : Type} (env : Env κ) (fl : Flags)
    (rf : RunFlags) (args args2 : List String)
    (h1 : fl.useV1 = true) (h2 : fl.useV2 = true) :
    (∃ m, createImageRunCmd env fl args = [Event.usageError m])
  ∧ (∃ m, runRunCmd env fl rf args2 = [Event.usageError m]) := by
  constructor
  · match args with
    | [] => exact ⟨"Must specify target and version", rfl⟩
    | [a0] => exact ⟨"Must specify target and version", rfl⟩
    | a0 :: a1 :: rest =>
      exact ⟨"Either -1, or -2, but not both",
        by simp [createImageRunCmd, h1, h2]⟩
  · match args2 with
    | [] => exact ⟨"Must specify target", rfl⟩
    | a0 :: rest =>
      exact ⟨"Either -1, or -2, but not both",
        by simp [runRunCmd, h1, h2]⟩

/-- C8 witness: concrete invocations of both commands with `-1` and `-2`
both set halt with a usage error. -/
theorem both_format_flags_usage_error_w :
    (∃ m, createImageRunCmd envA flagsBoth ["t", "1.2.3"]
        = [Event.usageError m])
  ∧ (∃ m, runRunCmd envA flagsBoth runFlagsDefault ["t"]
        = [Event.usageError m]) :=
  both_format_flags_usage_error envA flagsBoth runFlagsDefault
    ["t", "1.2.3"] ["t"] rfl rfl

/-- C1 counterexample: in the `run` command the token "timestamp" is
handed to the dotted-version parser (a `parseVersionCall` event occurs)
and the build artifact's modification time is never consulted (no
`statCall` event) — the version is parsed, not derived. -/
theorem run_timestamp_token_parsed_cex :
    Event.statCall ∉ runRunCmd envC flagsDefault runFlagsDefault
        ["t", "timestamp"]
  ∧ Event.parseVersionCall "timestamp" ∈ runRunCmd envC flagsDefault
        runFlagsDefault ["t", "timestamp"] := by
  decide

/-- C9 counterexample: with an overwrite-source filename configured, the
`run` command's image-production call carries the empty string in the
overwrite-source position while `create-image` under the same flags passes
the configured filename through — `run` does not pass it through. -/
theorem run_owsrc_not_passed_cex :
    Event.produce { major := 1, minor := 2, rev := 3, buildNum := 0 } [5]
        "" (-1) 0 0 "" false ""
      ∈ runRunCmd envA flagsOw runFlagsDefault ["t", "1.2.3", "k.pem"]
  ∧ Event.produce { major := 1, minor := 2, rev := 3, buildNum := 0 } [5]
        "" (-1) 0 0 "" false "ow.bin"
      ∉ runRunCmd envA flagsOw runFlagsDefault ["t", "1.2.3", "k.pem"]
  ∧ Event.produce { major := 1, minor := 2, rev := 3, buildNum := 0 } [5]
        "" (-1) 0 0 "" false "ow.bin"
      ∈ createImageRunCmd envA flagsOw ["t", "1.2.3", "k.pem"] := by
  decide

/-- C1 amended: the `run` command never derives a version from the build
artifact's modification time (no `stat` ever occurs in its pipeline), and
any supplied version token — including the literal "timestamp" — is handed
to the dotted-version parser; timestamp derivation exists only in
`create-image`. -/
theorem run_no_timestamp_derivation {κ : Type} [DecidableEq κ]
    (env : Env κ) (fl : Flags) (rf : RunFlags) (args : List String) :
    (runRunCmd env fl rf args).count Event.statCall = 0
  ∧ (∀ a0 a1 rest, args = a0 :: a1 :: rest →
      (fl.useV1 && fl.useV2) = false →
      env.targetBuilderForTargetOrUnittest a0 = Except.ok () →
      env.isTestPkg = false →
      env.build = Except.ok () →
      a1.length > 0 →
      Event.parseVersionCall a1 ∈ runRunCmd env fl rf args) := by
  constructor
  · rw [List.count_eq_zero]
    match args with
    | [] => simp [runRunCmd]
    | a0 :: rest =>
      simp only [runRunCmd]
      by_cases h12 : (fl.useV1 && fl.useV2) = true
      · simp [h12]
      · simp only [h12, if_false]
        cases htb : env.targetBuilderForTargetOrUnittest a0 <;> simp [htb]
        cases hT : env.isTestPkg with
        | true =>
          simp only [hT, if_true]
          cases h1 : env.selfTestCreateExeResult <;> simp [h1]
          cases h2 : env.selfTestDebugResult <;> simp [h2]
        | false =>
          simp only [hT, Bool.false_eq_true, if_false]
          cases rest with
          | cons a1 r2 => exact statCall_notin_runAfterVersion env fl rf _ a1
          | nil =>
            cases hc : env.resolveCfg <;> simp [hc]
            split <;> simp [statCall_notin_runAfterVersion]
  · intro a0 a1 rest harg h12 htb hT hb hlen
    subst harg
    simp only [runRunCmd, h12, Bool.false_eq_true, if_false, htb, hT,
      runAfterVersion, hb]
    rw [if_pos hlen]
    simp

/-- C1 amended witness: a concrete `run` invocation with the token
"timestamp" parses the token and performs no stat. -/
theorem run_no_timestamp_derivation_w :
    Event.parseVersionCall "timestamp"
      ∈ runRunCmd envC flagsDefault runFlagsDefault ["t", "timestamp"]
  ∧ (runRunCmd envC flagsDefault runFlagsDefault
      ["t", "timestamp"]).count Event.statCall = 0 :=
  ⟨(run_no_timestamp_derivation envC flagsDefault runFlagsDefault
      ["t", "timestamp"]).2 "t" "timestamp" [] rfl rfl rfl rfl rfl
      (by decide),
   (run_no_timestamp_derivation envC flagsDefault runFlagsDefault
      ["t", "timestamp"]).1⟩

/-- C9 amended: every image-production call the `run` command makes
passes the empty string as the overwrite-source argument, whatever
overwrite-source filename the flag configuration holds (`run` does not
pass the configured value through; only `create-image` does). -/
theorem run_produce_empty_owsrc {κ : Type} (env : Env κ) (fl : Flags)
    (rf : RunFlags) (args : List String) (v : ImageVersion) (ks : List κ)
    (eK : String) (eI hP iP : Int) (sec : String) (lt : Bool) (ow : String)
    (h : Event.produce v ks eK eI hP iP sec lt ow
        ∈ runRunCmd env fl rf args) : ow = "" := by
  match args with
  | [] => simp [runRunCmd] at h
  | a0 :: rest =>
    simp only [runRunCmd] at h
    by_cases h12 : (fl.useV1 && fl.useV2) = true
    · simp [h12] at h
    · simp only [h12, if_false] at h
      cases htb : env.targetBuilderForTargetOrUnittest a0 <;>
        simp [htb] at h
      cases hT : env.isTestPkg with
      | true =>
        simp only [hT, if_true] at h
        cases h1 : env.selfTestCreateExeResult <;> simp [h1] at h
        cases h2 : env.selfTestDebugResult <;> simp [h2] at h
      | false =>
        simp only [hT, Bool.false_eq_true, if_false] at h
        cases rest with
        | cons a1 r2 => exact produce_mem_runAfterVersion h
        | nil =>
          cases hc : env.resolveCfg <;> simp [hc] at h
          split at h
          · simp only [List.mem_cons] at h
            rcases h with h | h
            · simp at h
            · exact produce_mem_runAfterVersion h
          · exact produce_mem_runAfterVersion h

/-- C9 amended witness: instantiating the pass-through theorem at the
production call of a concrete `run` invocation whose configuration holds
overwrite-source "ow.bin" yields the empty overwrite-source. -/
theorem run_produce_empty_owsrc_w : ("" : String) = "" :=
  run_produce_empty_owsrc envA flagsOw runFlagsDefault
    ["t", "1.2.3", "k.pem"] { major := 1, minor := 2, rev := 3, buildNum := 0 }
    [5] "" (-1) 0 0 "" false "" (by decide)

/-- C10: in the `run` command an empty resolved version string means the
key-argument resolver is never invoked and no key file is ever read: with
an explicit empty version argument the whole behaviour is independent of
any trailing (possibly malformed) key arguments and contains no key-read
event, and likewise for a bootloader or simulated target invoked without
a version argument. -/
theorem run_empty_version_no_key_reads {κ : Type} [DecidableEq κ]
    (env : Env κ) (fl : Flags) (rf : RunFlags) (t : String)
    (rest : List String) :
    runRunCmd env fl rf (t :: "" :: rest) = runRunCmd env fl rf [t, ""]
  ∧ (∀ fs, (runRunCmd env fl rf (t :: "" :: rest)).count
      (Event.readKeys fs) = 0)
  ∧ (∀ st, env.resolveCfg = Except.ok st →
      st.bootLoader = true ∨ st.simulated = true →
      ∀ fs, (runRunCmd env fl rf [t]).count (Event.readKeys fs) = 0) := by
  refine ⟨?_, ?_, ?_⟩
  · simp only [runRunCmd, runAfterVersion_empty]
  · intro fs
    rw [List.count_eq_zero]
    simp only [runRunCmd]
    by_cases h12 : (fl.useV1 && fl.useV2) = true
    · simp [h12]
    · simp only [h12, if_false]
      cases htb : env.targetBuilderForTargetOrUnittest t <;> simp [htb]
      cases hT : env.isTestPkg with
      | true =>
        simp only [hT, if_true]
        cases h1 : env.selfTestCreateExeResult <;> simp [h1]
        cases h2 : env.selfTestDebugResult <;> simp [h2]
      | false =>
        simp only [hT, Bool.false_eq_true, if_false]
        rw [runAfterVersion_empty]
        cases hb : env.build <;> simp [hb, readKeys_notin_runLoadDebug]
  · intro st hc hbs fs
    have hcond : ¬(st.bootLoader = false ∧ st.simulated = false) := by
      rcases hbs with hb1 | hb1 <;> simp [hb1]
    rw [List.count_eq_zero]
    simp only [runRunCmd]
    by_cases h12 : (fl.useV1 && fl.useV2) = true
    · simp [h12]
    · simp only [h12, if_false]
      cases htb : env.targetBuilderForTargetOrUnittest t <;> simp [htb]
      cases hT : env.isTestPkg with
      | true =>
        simp only [hT, if_true]
        cases h1 : env.selfTestCreateExeResult <;> simp [h1]
        cases h2 : env.selfTestDebugResult <;> simp [h2]
      | false =>
        simp only [hT, Bool.false_eq_true, if_false, hc]
        rw [if_neg hcond, runAfterVersion_empty]
        cases hb : env.build <;> simp [hb, readKeys_notin_runLoadDebug]

/-- C10 witness: a concrete bootloader-target `run` invocation without a
version argument performs no key read. -/
theorem run_empty_version_no_key_reads_w :
    (runRunCmd envA flagsDefault runFlagsDefault ["t"]).count
      (Event.readKeys ["no-such-key.pem"]) = 0 :=
  (run_empty_version_no_key_reads envA flagsDefault runFlagsDefault
      "t" []).2.2 { bootLoader := true, simulated := false } (by decide)
    (Or.inl rfl) ["no-such-key.pem"]

/-- C7: a `run` invocation without a version argument against a
bootloader or simulated target never prompts, leaves the version empty and
skips image creation while still building, loading and debugging; against
a non-bootloader, non-simulated target with no console input the version
defaults to "0" and flows into image creation. -/
theorem run_version_prompt_behavior {κ : Type} (env : Env κ) (fl : Flags)
    (rf : RunFlags) (t : String) (st : RunSettings) (v0 : ImageVersion)
    (hT : env.isTestPkg = false)
    (hB : env.targetBuilderForTargetOrUnittest t = Except.ok ())
    (hC : env.resolveCfg = Except.ok st)
    (h1 : fl.useV1 = false)
    (hbuild : env.build = Except.ok ())
    (hload : env.load = Except.ok ())
    (hdebug : env.debug = Except.ok ()) :
    ((st.bootLoader = true ∨ st.simulated = true) →
      runRunCmd env fl rf [t] =
        [Event.tryGetProject, Event.newBuilder, Event.resolveCfgCall,
         Event.buildCall, Event.loadCall,
         Event.debugCall rf.noGDB rf.extraJtagCmd])
  ∧ (st.bootLoader = false → st.simulated = false →
      env.consoleInput = none →
      env.parseVersion "0" = Except.ok v0 →
      env.produceAllResult = Except.ok () →
      runRunCmd env fl rf [t] =
        [Event.tryGetProject, Event.newBuilder, Event.resolveCfgCall,
         Event.promptVersion, Event.buildCall, Event.parseVersionCall "0",
         Event.produce v0 [] fl.encKeyFilename fl.encKeyIndex fl.hdrPad
           fl.imagePad fl.sections fl.useLegacyTLV "",
         Event.loadCall, Event.debugCall rf.noGDB rf.extraJtagCmd]) := by
  have h12 : (fl.useV1 && fl.useV2) = false := by simp [h1]
  constructor
  · intro hbs
    have hcond : (!st.bootLoader && !st.simulated) = false := by
      rcases hbs with hb1 | hb1 <;> simp [hb1]
    unfold runRunCmd
    simp only [h12, Bool.false_eq_true, if_false, hB, hT, hC, hcond]
    rw [runAfterVersion_empty]
    simp [hbuild, runLoadDebug, hload, hdebug]
  · intro hb1 hb2 hci hpv hprod
    unfold runRunCmd
    simp only [h12, Bool.false_eq_true, if_false, hB, hT, hC, hb1, hb2,
      hci, Bool.not_false, Bool.and_self, if_true]
    unfold runAfterVersion
    have hlen : ("0".length > 0) := by decide
    simp only [hbuild, hlen, if_true, hpv]
    unfold produceEvents
    simp [h1, hprod, runLoadDebug, hload, hdebug]

/-- C7 witness: the two concrete cases — bootloader target (no prompt, no
image stage, build/load/debug run) and plain target with empty console
input (version defaults to "0"). -/
theorem run_version_prompt_behavior_w :
    runRunCmd envA flagsDefault runFlagsDefault ["t"] =
      [Event.tryGetProject, Event.newBuilder, Event.resolveCfgCall,
       Event.buildCall, Event.loadCall, Event.debugCall false ""]
  ∧ runRunCmd envB flagsDefault runFlagsDefault ["t"] =
      [Event.tryGetProject, Event.newBuilder, Event.resolveCfgCall,
       Event.promptVersion, Event.buildCall, Event.parseVersionCall "0",
       Event.produce { major := 0, minor := 0, rev := 0, buildNum := 0 } []
         "" (-1) 0 0 "" false "",
       Event.loadCall, Event.debugCall false ""] :=
  ⟨(run_version_prompt_behavior envA flagsDefault runFlagsDefault "t"
      { bootLoader := true, simulated := false }
      { major := 0, minor := 0, rev := 0, buildNum := 0 }
      rfl rfl (by decide) rfl rfl rfl rfl).1 (Or.inl rfl),
   (run_version_prompt_behavior envB flagsDefault runFlagsDefault "t"
      { bootLoader := false, simulated := false }
      { major := 0, minor := 0, rev := 0, buildNum := 0 }
      rfl rfl (by decide) rfl rfl rfl rfl).2 rfl rfl rfl (by decide) rfl⟩

/-- C4 witness: concrete legacy-format resolver calls — a valid key
identifier is parsed from the second argument (extra arguments ignored)
and a malformed identifier is rejected. -/
theorem parseKeyArgs_v1_multi_w :
    parseKeyArgs rkLen true ["k.pem", "7", "junk"] = Except.ok ([5], 7)
  ∧ parseKeyArgs rkLen true ["k.pem", "abc"]
      = Except.error "Key ID must be between 0-255" := by
  constructor
  · have h := ((parseKeyArgs_v1_multi rkLen "k.pem" "7" ["junk"]).2.1 7
      (by decide)).2
    rw [h]
    decide
  · exact (parseKeyArgs_v1_multi rkLen "k.pem" "abc" []).2.2 (by decide)

/-- C5 witness: concrete current-format resolver call — all three
arguments are loaded as key files and the key identifier is 0. -/
theorem parseKeyArgs_v2_all_files_keyId_zero_w :
    parseKeyArgs rkLen false ["a", "bb", "ccc"]
      = Except.ok ([1, 2, 3], 0) := by
  have h := (parseKeyArgs_v2_all_files_keyId_zero rkLen
    ["a", "bb", "ccc"]).2.1 (by simp)
  rw [h]
  decide

end Newt
